import Mathlib

/-!
Verification development for `autometer.py`, a single-file pipeline that
reads two electricity tariff values from the Saures metering API, submits
them to the Mosenergosbyt billing portal (CalcCharge, then SaveIndications)
and reports the outcome over Telegram.

The script is embedded shallowly: every external HTTP exchange is an input
(an oracle value of type `CallOut`), Python exceptions are explicit
(`PyErr`, distinguishing `SystemExit` — raised by `sys.exit(1)` and *not*
an `Exception` subclass — from ordinary exceptions), float readings are
exact rationals, and `main`'s observable effects (Telegram send attempts,
session close, process exit) are collected in a result record.
-/

namespace Autometer

/-- A JSON value as delivered by `response.json()`.  Mirrors the subset of
Python values the script manipulates: `None`, booleans, integers, strings,
lists and dicts (association lists preserving insertion order, as Python
dicts do). -/
inductive JVal where
  | jnull
  | jbool (b : Bool)
  | jint (n : Int)
  | jstr (s : String)
  | jarr (elems : List JVal)
  | jobj (fields : List (String × JVal))
deriving Repr

/-- A Python `dict[str, ...]` with JSON values, insertion-ordered. -/
abbrev PyDict := List (String × JVal)

/-- Python `d.get(k)`: the value under the first matching key, if any. -/
def dictGet (d : PyDict) (k : String) : Option JVal :=
  (d.find? (fun p => p.1 == k)).map (fun p => p.2)

/-- Python `d[k] = v` semantics used by `dict.update`: overwrite in place if
the key exists (keeping its position), otherwise append. -/
def dictSet (d : PyDict) (k : String) (v : JVal) : PyDict :=
  if d.any (fun p => p.1 == k) then
    d.map (fun p => if p.1 == k then (k, v) else p)
  else
    d ++ [(k, v)]

/-- Python `d.update(pairs)`: fold `dictSet` over the new pairs in order. -/
def dictUpdate (d : PyDict) (pairs : List (String × JVal)) : PyDict :=
  pairs.foldl (fun acc p => dictSet acc p.1 p.2) d

/-- Python truthiness of a JSON value (`bool(v)`): `None`/`False`/`0`/empty
string/empty list/empty dict are falsy, everything else truthy. -/
def truthy : JVal → Bool
  | .jnull => false
  | .jbool b => b
  | .jint n => n != 0
  | .jstr s => !s.data.isEmpty
  | .jarr l => !l.isEmpty
  | .jobj f => !f.isEmpty

/-- Python truthiness of an optional dict (`None` is falsy, a dict is truthy
iff it is non-empty). -/
def truthyOptDict : Option PyDict → Bool
  | none => false
  | some d => !d.isEmpty

/-- Truthiness of `o.get(k)` for an optional dict `o`; `none` (Python `None`)
is only consulted after the short-circuiting `and` in the source, where it
is already falsy. -/
def dictGetTruthy (o : Option PyDict) (k : String) : Bool :=
  match o with
  | none => false
  | some d =>
    match dictGet d k with
    | some v => truthy v
    | none => false

/-- Python `str(v)`, as the f-string of autometer.py:407-411 applies it to
the SaveIndications `nm_result` value: exact for the scalar values; for
containers the model returns a fixed abbreviation in place of Python's
full repr, a corner no claim exercises. -/
def pyStr : JVal → String
  | .jnull => "None"
  | .jbool true => "True"
  | .jbool false => "False"
  | .jint n => toString n
  | .jstr s => s
  | .jarr _ => "[...]"
  | .jobj _ => "\x7b...\x7d"

/-- Python's built-in `round` on an exact rational: round half to even
("banker's rounding"), expressed over the numerator/denominator so that it
reduces by kernel computation.  `f` is the floor, `rem2 = 2 * den * frac`. -/
def pyRound (q : ℚ) : Int :=
  let f : Int := Int.fdiv q.num (q.den : Int)
  let rem2 : Int := 2 * (q.num - f * (q.den : Int))
  if rem2 < (q.den : Int) then f
  else if (q.den : Int) < rem2 then f + 1
  else if f % 2 = 0 then f else f + 1

/-- Does `l` start with `pat`? (helper for the `str.replace` model). -/
def startsWithL : List Char → List Char → Bool
  | [], _ => true
  | _ :: _, [] => false
  | p :: ps, c :: cs => p == c && startsWithL ps cs

/-- One left-to-right, non-overlapping replacement pass over a character
list, the semantics of Python `str.replace` for a non-empty pattern.
Occurrences formed by earlier replacements are not re-scanned.  `fuel`
bounds the recursion by the input length (each step consumes at least one
character), keeping the definition structurally recursive. -/
def replAux (pat rep : List Char) : Nat → List Char → List Char
  | 0, l => l
  | _ + 1, [] => []
  | fuel + 1, c :: cs =>
    if startsWithL pat (c :: cs) then
      rep ++ replAux pat rep fuel (List.drop (pat.length - 1) cs)
    else
      c :: replAux pat rep fuel cs

/-- Python `s.replace(pat, rep)` for non-empty `pat`. -/
def pyReplace (s pat rep : String) : String :=
  (replAux pat.data rep.data s.data.length s.data).asString

/-- Python `s.split(sep)` for a one-character separator: `""` splits to
`[""]`, so an empty recipient list still yields one (empty) recipient. -/
def splitOnChar (sep : Char) : List Char → List (List Char)
  | [] => [[]]
  | c :: cs =>
    let r := splitOnChar sep cs
    if c == sep then [] :: r
    else
      match r with
      | [] => [[c]]
      | h :: t => (c :: h) :: t

/-- Python `s.split(',')` returning strings. -/
def pySplit (s : String) (sep : Char) : List String :=
  (splitOnChar sep s.data).map List.asString

/-- Does `hay` contain `pat` as a contiguous substring? -/
def containsSub (hay pat : List Char) : Bool :=
  match hay with
  | [] => pat.isEmpty
  | _ :: rest => startsWithL pat hay || containsSub rest pat

/-- Substring test on strings (used to exhibit surviving markup tags). -/
def strContainsSub (hay pat : String) : Bool :=
  containsSub hay.data pat.data

/-- A Python exception as far as `main`'s handlers can tell them apart:
`sysExit` models `SystemExit` (raised by `sys.exit`, *not* a subclass of
`Exception`, hence not caught by `except Exception`), `exc` models an
ordinary `Exception` carrying its `str(e)` rendering. -/
inductive PyErr where
  | sysExit (code : Nat)
  | exc (msg : String)
deriving Repr, DecidableEq

/-- The observable outcome of one HTTP exchange, the oracle input for each
external call: `reqExn` is a `requests.exceptions.RequestException`
(transport error or non-2xx via `raise_for_status`), `jsonExn` a body that
`response.json()` cannot parse (`ValueError`), `ok` a parsed JSON body. -/
inductive CallOut (β : Type) where
  | reqExn
  | jsonExn
  | ok (body : β)

/-- `result['data']` of the Saures login response (`sid` absent models a
`KeyError` on either `'data'` or `'sid'`). -/
structure SauresData where
  sid : Option String

/-- Parsed body of the Saures `/login` response. -/
structure SauresAuthBody where
  status : Option String
  data : Option SauresData

/-- One `type` object of a Saures meter (`name` may be absent). -/
structure MeterType where
  name : Option String

/-- One meter entry of a Saures snapshot; `vals` defaults to `[]` exactly
like `meter.get('vals', [])`, and raw readings are exact rationals in place
of Python floats. -/
structure Meter where
  type : Option MeterType
  vals : List ℚ

/-- One sensor entry (`sensor.get('meters', [])` defaults to `[]`). -/
structure Sensor where
  meters : List Meter

/-- The `data` payload of the Saures meters response
(`data.get('sensors', [])` defaults to `[]`). -/
structure Snapshot where
  sensors : List Sensor

/-- Parsed body of the Saures `/object/meters` response. -/
structure MetersBody where
  status : Option String
  data : Option Snapshot

/-- One record of the Mosenergosbyt login `data` list. -/
structure MosAuthRec where
  session : Option String

/-- Parsed body of the Mosenergosbyt login response; `data = none` models a
`KeyError` on `'data'`, `data = some []` an `IndexError` on `[0]`. -/
structure MosAuthBody where
  success : Option JVal
  data : Option (List MosAuthRec)

/-- One record of the Mosenergosbyt `LSList` `data` list. -/
structure ProvRec where
  vl_provider : Option String

/-- Parsed body of the Mosenergosbyt `LSList` response. -/
structure ProvBody where
  success : Option JVal
  data : Option (List ProvRec)

/-- `authenticate_saures` (autometer.py:94-132).  Transport errors,
unparsable bodies, a non-`'ok'` status and `KeyError`s on
`result['data']['sid']` all end in `sys.exit(1)`; success returns the sid. -/
def authenticate_saures (_api_url _login _password : String)
    (out : CallOut SauresAuthBody) : Except PyErr String :=
  match out with
  | .reqExn => .error (.sysExit 1)
  | .jsonExn => .error (.sysExit 1)
  | .ok r =>
    if r.status = some "ok" then
      match r.data with
      | none => .error (.sysExit 1)
      | some d =>
        match d.sid with
        | none => .error (.sysExit 1)
        | some sid => .ok sid
    else .error (.sysExit 1)

/-- `fetch_saures_meter_data` (autometer.py:135-167).  Same contract as
`authenticate_saures`; success returns `result['data']`. -/
def fetch_saures_meter_data (_api_url _sid _meter_id _current_time : String)
    (out : CallOut MetersBody) : Except PyErr Snapshot :=
  match out with
  | .reqExn => .error (.sysExit 1)
  | .jsonExn => .error (.sysExit 1)
  | .ok r =>
    if r.status = some "ok" then
      match r.data with
      | none => .error (.sysExit 1)
      | some d => .ok d
    else .error (.sysExit 1)

/-- The electricity-channel condition of autometer.py:181:
`meter.get('type', \x7b\x7d).get('name') == 'Электричество'`. -/
def isElecMeter (m : Meter) : Bool :=
  (m.type.bind MeterType.name) == some "Электричество"

/-- Inner loop of `get_electricity_vals`: first electricity meter of one
sensor's meter list, as raw values. -/
def scanMeters : List Meter → Option (List ℚ)
  | [] => none
  | m :: rest => if isElecMeter m then some m.vals else scanMeters rest

/-- Outer loop of `get_electricity_vals` over the sensors. -/
def scanSensors : List Sensor → Option (List ℚ)
  | [] => none
  | s :: rest =>
    match scanMeters s.meters with
    | some v => some v
    | none => scanSensors rest

/-- `get_electricity_vals` (autometer.py:170-183): the rounded values of the
first electricity-typed meter found in the nested sensors→meters scan, or
`[]` when no such meter exists. -/
def get_electricity_vals (data : Snapshot) : List Int :=
  match scanSensors data.sensors with
  | some vals => vals.map pyRound
  | none => []

/-- `authenticate_mosenergo` (autometer.py:186-239).  Transport/parse
failures and `KeyError`s exit via `sys.exit(1)` (the function's
`except (ValueError, KeyError)` clause), but an empty `data` list raises
`IndexError` at `result['data'][0]`, which that clause does *not* catch, so
it propagates as an ordinary exception. -/
def authenticate_mosenergo (_lk_url _login _password : String)
    (out : CallOut MosAuthBody) : Except PyErr String :=
  match out with
  | .reqExn => .error (.sysExit 1)
  | .jsonExn => .error (.sysExit 1)
  | .ok r =>
    if (r.success.map truthy).getD false then
      match r.data with
      | none => .error (.sysExit 1)
      | some [] => .error (.exc "list index out of range")
      | some (rec :: _) =>
        match rec.session with
        | none => .error (.sysExit 1)
        | some sid => .ok sid
    else .error (.sysExit 1)

/-- `fetch_mosenergo_provider` (autometer.py:242-276), same shape as
`authenticate_mosenergo` but extracting `result['data'][0]['vl_provider']`. -/
def fetch_mosenergo_provider (_lk_url _session_id : String)
    (out : CallOut ProvBody) : Except PyErr String :=
  match out with
  | .reqExn => .error (.sysExit 1)
  | .jsonExn => .error (.sysExit 1)
  | .ok r =>
    if (r.success.map truthy).getD false then
      match r.data with
      | none => .error (.sysExit 1)
      | some [] => .error (.exc "list index out of range")
      | some (rec :: _) =>
        match rec.vl_provider with
        | none => .error (.sysExit 1)
        | some pid => .ok pid
    else .error (.sysExit 1)

/-- Result of one `send_mosenergo_data` call: the URL it targeted, the
`payload_base` dict *after* the in-place `update` (the mutation happens
before the request is attempted), and the call's outcome — `.ok none` for a
caught `RequestException` (the function logs and returns `None`), `.ok
(some body)` for a parsed response, `.error` for the uncaught `ValueError`
a non-JSON body raises in `response.json()`. -/
structure SendOutput where
  url : String
  payload : PyDict
  result : Except PyErr (Option PyDict)

/-- The pairs `payload_base.update(...)` adds (autometer.py:300-317):
`proxyquery` only for the `'CalcCharge'` operation; every other
`query_type` string takes the `else` branch (`SaveIndications`). -/
def sendPairs (query_type provider_id : String) (v0 v1 : Int) :
    List (String × JVal) :=
  if query_type = "CalcCharge" then
    [("proxyquery", .jstr "CalcCharge"), ("vl_provider", .jstr provider_id),
     ("vl_t1", .jint v0), ("vl_t2", .jint v1)]
  else
    [("vl_provider", .jstr provider_id), ("vl_t1", .jint v0),
     ("vl_t2", .jint v1)]

/-- The URL `send_mosenergo_data` builds: the `bytProxy` query for
`'CalcCharge'`, the `SaveIndications` query for every other `query_type`. -/
def sendUrl (lk_url session_id query_type : String) : String :=
  if query_type = "CalcCharge" then
    lk_url ++ "?action=sql&query=bytProxy&session=" ++ session_id
  else
    lk_url ++ "?action=sql&query=SaveIndications&session=" ++ session_id

/-- `send_mosenergo_data` (autometer.py:279-330).  With fewer than two
electricity values the payload literal raises `IndexError` before any
mutation or request; otherwise the base payload is updated in place
unconditionally, the request is attempted, a `RequestException` is caught
and turned into a `None` result, and anything else is the parsed body. -/
def send_mosenergo_data (lk_url session_id provider_id : String)
    (electricity_values : List Int) (query_type : String)
    (payload_base : PyDict) (out : CallOut PyDict) :
    Except PyErr SendOutput :=
  match electricity_values with
  | [] => .error (.exc "list index out of range")
  | [_] => .error (.exc "list index out of range")
  | v0 :: v1 :: _ =>
    let url := sendUrl lk_url session_id query_type
    let payload := dictUpdate payload_base (sendPairs query_type provider_id v0 v1)
    match out with
    | .reqExn => .ok ⟨url, payload, .ok none⟩
    | .jsonExn => .ok ⟨url, payload, .error (.exc "Expecting value: line 1 column 1 (char 0)")⟩
    | .ok body => .ok ⟨url, payload, .ok (some body)⟩

/-- The success condition of autometer.py:400, with Python's
short-circuiting `and` over the two optional dicts and their `'success'`
fields. -/
def successCondition (calcResp saveResp : Option PyDict) : Bool :=
  truthyOptDict calcResp && truthyOptDict saveResp &&
    dictGetTruthy calcResp "success" && dictGetTruthy saveResp "success"

/-- `resp['data'][0].get('nm_result', 'No result message available')`
(autometer.py:402 and 406): the raw JSON value under `nm_result` (or the
default string when the key is absent), or the exception the subscript
chain raises: a missing `'data'` key (`str(KeyError('data')) = "'data'"`),
an empty list (`IndexError`), a first element that is not a dict
(`AttributeError` on `.get` — one representative message stands for
Python's per-type variants) or a non-list `'data'` value (`TypeError`,
likewise one representative message). -/
def extractNmResult (o : Option PyDict) : Except String JVal :=
  match o with
  | none => .error "'NoneType' object is not subscriptable"
  | some d =>
    match dictGet d "data" with
    | none => .error "'data'"
    | some (.jarr []) => .error "list index out of range"
    | some (.jarr (.jobj f :: _)) =>
      .ok ((dictGet f "nm_result").getD (.jstr "No result message available"))
    | some (.jarr (_ :: _)) => .error "'str' object has no attribute 'get'"
    | some _ => .error "'int' object is not subscriptable"

/-- Python's type name for a JSON value, as it appears in `AttributeError`
messages. -/
def pyTypeName : JVal → String
  | .jnull => "NoneType"
  | .jbool _ => "bool"
  | .jint _ => "int"
  | .jstr _ => "str"
  | .jarr _ => "list"
  | .jobj _ => "dict"

/-- The markup normalization of autometer.py:404-405, applied (only) to the
CalcCharge result text: strip the tomato-colored font wrapper, then turn
HTML bold tags into Markdown bold. -/
def cleanResultText (t : String) : String :=
  pyReplace (pyReplace (pyReplace (pyReplace t
    "<font color='#ff6347'>" "") "</font>" "") "<b>" "**") "</b>" "**"

/-- The `.replace` chain of autometer.py:404-405 applied to the raw
CalcCharge `nm_result` value: only a `str` has `.replace`, so any
non-string value raises `AttributeError` there (the `calc_result: str`
annotation is not enforced at runtime). -/
def cleanCalcResult (v : JVal) : Except String String :=
  match v with
  | .jstr s => .ok (cleanResultText s)
  | v => .error ("'" ++ pyTypeName v ++ "' object has no attribute 'replace'")

/-- The notification built on the success branch (autometer.py:407-411)
from the already-cleaned CalcCharge text and the SaveIndications text as
the f-string coerced it. -/
def successMessage (calcCleaned saveText : String) : String :=
  "✅ *Mosenergosbyt Operation Success*\n\n" ++
    calcCleaned ++ "\n" ++ saveText

/-- The generic failure notification of autometer.py:413-418. -/
def failureMessage : String :=
  "❌ *Mosenergosbyt Operation Failure*\n\nError: Operation failed. Check logs for details."

/-- The notification `main`'s `except Exception` handler builds
(autometer.py:420-427) from `str(e)`. -/
def unexpectedMessage (errText : String) : String :=
  "❌ *Mosenergosbyt Script Unexpected Failure*\n\nError: " ++ errText

/-- Outcome of the classification-and-rendering stage. -/
structure ClassifyOut where
  success : Bool
  message : String
  errorMessage : String
deriving Repr

/-- Lines 399-418 of `main` plus the enclosing `except Exception` for the
exceptions those lines themselves can raise, in program order: extract the
CalcCharge `nm_result` (autometer.py:402), clean it with the `.replace`
chain (404-405 — an `AttributeError` when the value is not a string),
extract the SaveIndications `nm_result` (406), then render the message with
the save value `str()`-coerced by the f-string (407-411, which never
raises).  The first exception lands in the handler (success reset to
`False`, "Unexpected Failure" message); when the four-way condition fails,
the generic failure message. -/
def classifyOutcome (calcResp saveResp : Option PyDict) : ClassifyOut :=
  if successCondition calcResp saveResp then
    match extractNmResult calcResp with
    | .error e => ⟨false, unexpectedMessage e, e⟩
    | .ok calcV =>
      match cleanCalcResult calcV with
      | .error e => ⟨false, unexpectedMessage e, e⟩
      | .ok calcCleaned =>
        match extractNmResult saveResp with
        | .error e => ⟨false, unexpectedMessage e, e⟩
        | .ok saveV => ⟨true, successMessage calcCleaned (pyStr saveV), ""⟩
  else
    ⟨false, failureMessage, "Operation failed. Check logs for details."⟩

/-- The nine mandatory environment variables, by their lower-cased names
(`setup_environment`, autometer.py:10-46). -/
structure EnvVars where
  login : String
  log_file : String
  saures_pass : String
  saures_api_url : String
  meter_id : String
  mosenergo_lk_url : String
  mosenergo_pass : String
  telegram_bot_token : String
  telegram_chat_id : String

/-- The process environment as an association list (`os.environ`). -/
abbrev EnvMap := List (String × String)

/-- `os.environ.get(var)`. -/
def envGet (env : EnvMap) (k : String) : Option String :=
  (env.find? (fun p => p.1 == k)).map (fun p => p.2)

/-- `os.environ.get(var, '')`. -/
def envGetD (env : EnvMap) (k : String) : String :=
  (envGet env k).getD ""

/-- The `required_env_vars` list of autometer.py:20-30. -/
def requiredEnvVars : List String :=
  ["LOGIN", "LOG_FILE", "SAURES_PASS", "SAURES_API_URL", "METER_ID",
   "MOSENERGO_LK_URL", "MOSENERGO_PASS", "TELEGRAM_BOT_TOKEN", "TELEGRAM_CHAT_ID"]

/-- Is `os.environ.get(var)` truthy (present and non-empty)?  `not
os.environ.get(var)` treats both an absent and an empty variable as
missing. -/
def envVarTruthy (env : EnvMap) (k : String) : Bool :=
  match envGet env k with
  | none => false
  | some s => !s.data.isEmpty

/-- `setup_environment` (autometer.py:10-46): `sys.exit(1)` when any
required variable is absent or empty, otherwise the lower-cased record. -/
def setup_environment (env : EnvMap) : Except PyErr EnvVars :=
  let missing := requiredEnvVars.filter (fun v => !envVarTruthy env v)
  if missing.isEmpty then
    .ok ⟨envGetD env "LOGIN", envGetD env "LOG_FILE", envGetD env "SAURES_PASS",
         envGetD env "SAURES_API_URL", envGetD env "METER_ID",
         envGetD env "MOSENERGO_LK_URL", envGetD env "MOSENERGO_PASS",
         envGetD env "TELEGRAM_BOT_TOKEN", envGetD env "TELEGRAM_CHAT_ID"⟩
  else
    .error (.sysExit 1)

/-- The oracle for one run: the outcome of each external HTTP exchange, in
the order `main` performs them. -/
structure World where
  sauresAuth : CallOut SauresAuthBody
  metersFetch : CallOut MetersBody
  mosAuth : CallOut MosAuthBody
  provFetch : CallOut ProvBody
  calcSend : CallOut PyDict
  saveSend : CallOut PyDict

/-- State of `main`'s local variables when its `try` block is left, plus
bookkeeping on which external calls were attempted.  `message = none`
models the name `message` never having been bound, which happens exactly
when a `SystemExit` (not caught by `except Exception`) escapes the block. -/
structure TryOut where
  calcResponse : Option PyDict
  saveResponse : Option PyDict
  success : Bool
  errorMessage : String
  message : Option String
  sessionCreated : Bool
  mosAuthAttempted : Bool
  calcAttempted : Bool
  saveAttempted : Bool

/-- How `main` leaves the `try` block when a step raises: a `SystemExit`
sails past `except Exception` leaving `message` unbound; an ordinary
exception is caught once and rendered into the "Unexpected Failure"
notification (autometer.py:420-427). -/
def applyErr (t : TryOut) (e : PyErr) : TryOut :=
  match e with
  | .sysExit _ => t
  | .exc m => { t with success := false, errorMessage := m,
                       message := some (unexpectedMessage m) }

/-- The `try` block of `main` (autometer.py:348-427): metering auth, meter
fetch, value extraction and validation, billing auth, provider fetch, both
submissions, then classification.  Each step's failure mode flows through
`applyErr`. -/
def tryBlock (env : EnvVars) (w : World) : TryOut :=
  let t0 : TryOut := ⟨none, none, false, "", none, false, false, false, false⟩
  match authenticate_saures env.saures_api_url env.login env.saures_pass w.sauresAuth with
  | .error e => applyErr t0 e
  | .ok saures_sid =>
    match fetch_saures_meter_data env.saures_api_url saures_sid env.meter_id "" w.metersFetch with
    | .error e => applyErr t0 e
    | .ok meters_data =>
      let electricity_values := get_electricity_vals meters_data
      if electricity_values.length < 2 then
        applyErr t0 (.exc "Not enough electricity values received.")
      else
        let t1 := { t0 with mosAuthAttempted := true }
        match authenticate_mosenergo env.mosenergo_lk_url env.login env.mosenergo_pass w.mosAuth with
        | .error e => applyErr t1 e
        | .ok session_id =>
          let t2 := { t1 with sessionCreated := true }
          match fetch_mosenergo_provider env.mosenergo_lk_url session_id w.provFetch with
          | .error e => applyErr t2 e
          | .ok provider_id =>
            let calc_payload : PyDict :=
              [("nn_phone", .jstr "+7 (499) 550-9-550"), ("plugin", .jstr "bytProxy"),
               ("pr_flat_meter", .jint 0)]
            let save_payload : PyDict :=
              [("plugin", .jstr "propagateMesInd"), ("pr_flat_meter", .jint 0)]
            let t3 := { t2 with calcAttempted := true }
            match send_mosenergo_data env.mosenergo_lk_url session_id provider_id
                electricity_values "CalcCharge" calc_payload w.calcSend with
            | .error e => applyErr t3 e
            | .ok calcOut =>
              match calcOut.result with
              | .error e => applyErr t3 e
              | .ok calc_response =>
                let t4 := { t3 with calcResponse := calc_response, saveAttempted := true }
                match send_mosenergo_data env.mosenergo_lk_url session_id provider_id
                    electricity_values "SaveIndications" save_payload w.saveSend with
                | .error e => applyErr t4 e
                | .ok saveOut =>
                  match saveOut.result with
                  | .error e => applyErr t4 e
                  | .ok save_response =>
                    let t5 := { t4 with saveResponse := save_response }
                    let c := classifyOutcome calc_response save_response
                    { t5 with success := c.success, message := some c.message,
                              errorMessage := c.errorMessage }

/-- Everything observable about one process invocation of `main`:
`notified` lists the Telegram send attempts (recipient, text) in order,
`exitOk` is true exactly when the process exits with status 0, and
`sessionClosed` records whether `session.close()` ran. -/
structure RunResult where
  notified : List (String × String)
  exitOk : Bool
  success : Bool
  message : Option String
  sessionCreated : Bool
  sessionClosed : Bool
  mosAuthAttempted : Bool
  calcAttempted : Bool
  saveAttempted : Bool
  calcResponse : Option PyDict
  saveResponse : Option PyDict
  errorMessage : String

/-- `main` (autometer.py:333-441).  A missing mandatory variable exits
non-zero before the protected region.  Otherwise the `try` block runs; in
`finally`, if `message` was bound every comma-separated recipient is sent
it and the session is closed when it was created (the `except NameError`
swallows the unbound-`session` case), and the process exits 0.  If a
`SystemExit` escaped the block, `message` is unbound and the very first
`send_telegram_message` argument raises `UnboundLocalError` inside
`finally`: nobody is notified, the session is never closed, and the
process dies non-zero. -/
def runMain (envMap : EnvMap) (w : World) : RunResult :=
  match setup_environment envMap with
  | .error _ =>
    ⟨[], false, false, none, false, false, false, false, false, none, none, ""⟩
  | .ok env =>
    let t := tryBlock env w
    match t.message with
    | none =>
      ⟨[], false, t.success, none, t.sessionCreated, false, t.mosAuthAttempted,
       t.calcAttempted, t.saveAttempted, t.calcResponse, t.saveResponse, t.errorMessage⟩
    | some msg =>
      ⟨(pySplit env.telegram_chat_id ',').map (fun id => (id, msg)), true,
       t.success, some msg, t.sessionCreated, t.sessionCreated, t.mosAuthAttempted,
       t.calcAttempted, t.saveAttempted, t.calcResponse, t.saveResponse, t.errorMessage⟩

/-! ### Concrete fixtures: a fully populated environment and the happy-path
oracle responses, reused by the run-level theorems below. -/

/-- A process environment with all nine mandatory variables set; two
Telegram recipients are configured (`"42,43"`). -/
def envFull : EnvMap :=
  [("LOGIN", "user@example.com"), ("LOG_FILE", "/tmp/autometer.log"),
   ("SAURES_PASS", "spass"), ("SAURES_API_URL", "https://api.saures.ru/1.0"),
   ("METER_ID", "12345"), ("MOSENERGO_LK_URL", "https://my.mosenergosbyt.ru/gate_lkcomu"),
   ("MOSENERGO_PASS", "mpass"), ("TELEGRAM_BOT_TOKEN", "token"),
   ("TELEGRAM_CHAT_ID", "42,43")]

/-- A successful Saures login response. -/
def okSauresAuth : CallOut SauresAuthBody := .ok ⟨some "ok", some ⟨some "sid1"⟩⟩

/-- A snapshot with one electricity meter carrying two values. -/
def snapOk : Snapshot :=
  ⟨[⟨[⟨some ⟨some "Электричество"⟩, [(10 : ℚ), (20 : ℚ)]⟩]⟩]⟩

/-- A successful Saures meters response carrying `snapOk`. -/
def okMeters : CallOut MetersBody := .ok ⟨some "ok", some snapOk⟩

/-- A successful Mosenergosbyt login response. -/
def okMosAuth : CallOut MosAuthBody := .ok ⟨some (.jbool true), some [⟨some "msid"⟩]⟩

/-- A successful Mosenergosbyt `LSList` response. -/
def okProv : CallOut ProvBody := .ok ⟨some (.jbool true), some [⟨some "prov1"⟩]⟩

/-- A well-formed successful submission response with result text `t`. -/
def goodSubmission (t : String) : PyDict :=
  [("success", .jbool true), ("data", .jarr [.jobj [("nm_result", .jstr t)]])]

/-- Does the CalcCharge side of the success branch evaluate without
raising — both the subscript chain of autometer.py:402 and the `.replace`
chain of 404-405? -/
def calcRenderOk (o : Option PyDict) : Bool :=
  match extractNmResult o with
  | .error _ => false
  | .ok v =>
    match cleanCalcResult v with
    | .error _ => false
    | .ok _ => true

/-- Does the SaveIndications subscript chain (autometer.py:406) evaluate
without raising?  Its value is then `str()`-coerced by the f-string, which
never raises. -/
def saveRenderOk (o : Option PyDict) : Bool :=
  match extractNmResult o with
  | .error _ => false
  | .ok _ => true

/-- World in which the Saures login replies with a non-`'ok'` status (a
metering authentication failure); later calls are never reached. -/
def wC1 : World :=
  ⟨.ok ⟨some "error", none⟩, .reqExn, .reqExn, .reqExn, .reqExn, .reqExn⟩

/-- World in which the Saures meters response is malformed: status `'ok'`
but no `'data'` field (a `KeyError` inside `fetch_saures_meter_data`). -/
def wC5 : World :=
  ⟨okSauresAuth, .ok ⟨some "ok", none⟩, .reqExn, .reqExn, .reqExn, .reqExn⟩

/-- World in which billing authentication succeeds but the `LSList`
provider lookup replies with `success: false`. -/
def wC7 : World :=
  ⟨okSauresAuth, okMeters, okMosAuth, .ok ⟨some (.jbool false), none⟩,
   .reqExn, .reqExn⟩

/-- World in which both submissions reply `{'success': true}` with no
`'data'` field at all. -/
def wC2 : World :=
  ⟨okSauresAuth, okMeters, okMosAuth, okProv,
   .ok [("success", .jbool true)], .ok [("success", .jbool true)]⟩

/-- Happy-path world parametrized by the two `nm_result` texts. -/
def wSuccess (c s : String) : World :=
  ⟨okSauresAuth, okMeters, okMosAuth, okProv,
   .ok (goodSubmission c), .ok (goodSubmission s)⟩

/-- Happy-path world whose CalcCharge text carries the font wrapper and
bold tags and whose SaveIndications text carries bold tags. -/
def wC4 : World :=
  wSuccess "<font color='#ff6347'>Accrual</font> <b>57.00</b>" "<b>Saved OK</b>"

/-- World in which the CalcCharge request hits a transport error while the
SaveIndications response is an arbitrary dict `d`. -/
def wCalcFail (d : PyDict) : World :=
  ⟨okSauresAuth, okMeters, okMosAuth, okProv, .reqExn, .ok d⟩

/-- World delivering an arbitrary snapshot from the metering provider;
billing endpoints are never reached when the snapshot lacks readings. -/
def wNoElec (snap : Snapshot) : World :=
  ⟨okSauresAuth, .ok ⟨some "ok", some snap⟩, .reqExn, .reqExn, .reqExn, .reqExn⟩

/-- A snapshot whose single electricity meter has three values. -/
def snapThree : Snapshot :=
  ⟨[⟨[⟨some ⟨some "Электричество"⟩, [(1 : ℚ), 2, 7]⟩]⟩]⟩

/-- An electricity meter with two integer-valued readings. -/
def meterElec : Meter := ⟨some ⟨some "Электричество"⟩, [(3 : ℚ), 5]⟩

/-- A snapshot whose first sensor holds only a water meter and whose second
holds `meterElec`. -/
def snapTwoSensors : Snapshot :=
  ⟨[⟨[⟨some ⟨some "Вода"⟩, [(1 : ℚ)]⟩]⟩, ⟨[meterElec]⟩]⟩

/-- A snapshot with no electricity-typed meter at all. -/
def snapWater : Snapshot := ⟨[⟨[⟨some ⟨some "Вода"⟩, [(8 : ℚ), 9]⟩]⟩]⟩

/-- The billing base URL of `envFull`. -/
def lkFull : String := "https://my.mosenergosbyt.ru/gate_lkcomu"

/-- The `calc_payload` literal of autometer.py:381-385. -/
def calcPayloadInit : PyDict :=
  [("nn_phone", .jstr "+7 (499) 550-9-550"), ("plugin", .jstr "bytProxy"),
   ("pr_flat_meter", .jint 0)]

/-- The record `setup_environment` builds from `envFull`. -/
def envVarsFull : EnvVars :=
  ⟨"user@example.com", "/tmp/autometer.log", "spass",
   "https://api.saures.ru/1.0", "12345",
   "https://my.mosenergosbyt.ru/gate_lkcomu", "mpass", "token", "42,43"⟩

/-! ### Dictionary lemmas -/

/-- Lookup at a matching head. -/
theorem dictGet_cons_pos (x : String × JVal) (l : PyDict) (k : String)
    (h : (x.1 == k) = true) : dictGet (x :: l) k = some x.2 := by
  have hf : List.find? (fun p => p.1 == k) (x :: l) = some x :=
    List.find?_cons_of_pos l h
  unfold dictGet
  rw [hf]
  rfl

/-- Lookup skips a non-matching head. -/
theorem dictGet_cons_neg (x : String × JVal) (l : PyDict) (k : String)
    (h : (x.1 == k) = false) : dictGet (x :: l) k = dictGet l k := by
  have hf : List.find? (fun p => p.1 == k) (x :: l) =
      List.find? (fun p => p.1 == k) l :=
    List.find?_cons_of_neg l (by rw [h]; exact Bool.false_ne_true)
  unfold dictGet
  rw [hf]

/-- Overwriting pass of `dictSet`: key `k` afterwards maps to `v` exactly
when it occurred. -/
theorem dictGet_map_upd_self (d : PyDict) (k : String) (v : JVal) :
    dictGet (d.map (fun p => if p.1 == k then (k, v) else p)) k =
      if d.any (fun p => p.1 == k) then some v else none := by
  induction d with
  | nil => simp [dictGet]
  | cons p rest ih =>
    cases hp : (p.1 == k) with
    | true =>
      have h1 : (if p.1 == k then (k, v) else p) = (k, v) := by rw [hp, if_pos rfl]
      rw [List.map_cons, h1, dictGet_cons_pos _ _ _ (by simp)]
      rw [List.any_cons, hp, Bool.true_or, if_pos rfl]
    | false =>
      have h1 : (if p.1 == k then (k, v) else p) = p := by
        rw [hp]; exact if_neg Bool.false_ne_true
      rw [List.map_cons, h1, dictGet_cons_neg _ _ _ hp, ih,
          List.any_cons, hp, Bool.false_or]

/-- Overwriting pass of `dictSet` leaves other keys unchanged. -/
theorem dictGet_map_upd_ne (d : PyDict) (k k' : String) (v : JVal)
    (h : k' ≠ k) :
    dictGet (d.map (fun p => if p.1 == k then (k, v) else p)) k' =
      dictGet d k' := by
  have hkk : (k == k') = false := beq_eq_false_iff_ne.mpr (fun he => h he.symm)
  induction d with
  | nil => rfl
  | cons p rest ih =>
    cases hp : (p.1 == k) with
    | true =>
      have hpk : p.1 = k := by exact beq_iff_eq.mp hp
      have h1 : (if p.1 == k then (k, v) else p) = (k, v) := by rw [hp, if_pos rfl]
      have hp' : (p.1 == k') = false := by rw [hpk]; exact hkk
      rw [List.map_cons, h1, dictGet_cons_neg _ _ _ hkk, ih,
          dictGet_cons_neg _ _ _ hp']
    | false =>
      have h1 : (if p.1 == k then (k, v) else p) = p := by
        rw [hp]; exact if_neg Bool.false_ne_true
      cases hq : (p.1 == k') with
      | true =>
        rw [List.map_cons, h1, dictGet_cons_pos _ _ _ hq,
            dictGet_cons_pos _ _ _ hq]
      | false =>
        rw [List.map_cons, h1, dictGet_cons_neg _ _ _ hq, ih,
            dictGet_cons_neg _ _ _ hq]

/-- Appending pass of `dictSet`: a fresh key is found at the end. -/
theorem dictGet_append_single_self (d : PyDict) (k : String) (v : JVal)
    (h : d.any (fun p => p.1 == k) = false) :
    dictGet (d ++ [(k, v)]) k = some v := by
  induction d with
  | nil => simp [dictGet]
  | cons p rest ih =>
    rw [List.any_cons, Bool.or_eq_false_iff] at h
    rw [List.cons_append, dictGet_cons_neg _ _ _ h.1]
    exact ih h.2

/-- Appending pass of `dictSet` leaves other keys unchanged. -/
theorem dictGet_append_single_ne (d : PyDict) (k k' : String) (v : JVal)
    (h : k' ≠ k) : dictGet (d ++ [(k, v)]) k' = dictGet d k' := by
  have hkk : (k == k') = false := beq_eq_false_iff_ne.mpr (fun he => h he.symm)
  induction d with
  | nil =>
    rw [List.nil_append, dictGet_cons_neg _ _ _ hkk]
  | cons p rest ih =>
    cases hq : (p.1 == k') with
    | true =>
      rw [List.cons_append, dictGet_cons_pos _ _ _ hq,
          dictGet_cons_pos _ _ _ hq]
    | false =>
      rw [List.cons_append, dictGet_cons_neg _ _ _ hq, ih,
          dictGet_cons_neg _ _ _ hq]

/-- After `dictSet d k v`, key `k` maps to `v`. -/
theorem dictGet_dictSet_self (d : PyDict) (k : String) (v : JVal) :
    dictGet (dictSet d k v) k = some v := by
  unfold dictSet
  cases hb : d.any (fun p => p.1 == k) with
  | true => rw [if_pos rfl, dictGet_map_upd_self, if_pos hb]
  | false =>
    rw [if_neg Bool.false_ne_true]
    exact dictGet_append_single_self d k v hb

/-- `dictSet d k v` leaves every other key unchanged. -/
theorem dictGet_dictSet_ne (d : PyDict) (k k' : String) (v : JVal)
    (h : k' ≠ k) : dictGet (dictSet d k v) k' = dictGet d k' := by
  unfold dictSet
  cases hb : d.any (fun p => p.1 == k) with
  | true =>
    rw [if_pos rfl]
    exact dictGet_map_upd_ne d k k' v h
  | false =>
    rw [if_neg Bool.false_ne_true]
    exact dictGet_append_single_ne d k k' v h

/-! ### The nested scan of `get_electricity_vals` as a flat first-match -/

/-- The inner meter loop picks exactly the first electricity meter. -/
theorem scanMeters_eq_find (ms : List Meter) :
    scanMeters ms = (ms.find? isElecMeter).map Meter.vals := by
  induction ms with
  | nil => rfl
  | cons m rest ih =>
    by_cases h : isElecMeter m
    · simp [scanMeters, h, List.find?_cons_of_pos]
    · simp [scanMeters, h, List.find?_cons_of_neg, ih]

/-- The sensor loop is a first-match over the depth-first flattening of all
meters. -/
theorem scanSensors_eq_find (ss : List Sensor) :
    scanSensors ss =
      ((ss.flatMap Sensor.meters).find? isElecMeter).map Meter.vals := by
  induction ss with
  | nil => rfl
  | cons s rest ih =>
    cases hf : s.meters.find? isElecMeter with
    | some m =>
      simp [scanSensors, scanMeters_eq_find, hf, List.flatMap_cons,
            List.find?_append]
    | none =>
      simp [scanSensors, scanMeters_eq_find, hf, List.flatMap_cons,
            List.find?_append, ih]

/-! ### Run-level helper lemmas -/

/-- `setup_environment` accepts the fully populated environment. -/
theorem setup_envFull_ok : setup_environment envFull = .ok envVarsFull := rfl

/-- When metering auth and fetch succeed but the extracted reading is too
short, the `try` block stops at the validation `raise` with the fatal
message, before any billing activity. -/
theorem tryBlock_short_reading (env : EnvVars) (w : World) (sid : String)
    (snap : Snapshot)
    (hAuth : authenticate_saures env.saures_api_url env.login env.saures_pass
      w.sauresAuth = .ok sid)
    (hFetch : fetch_saures_meter_data env.saures_api_url sid env.meter_id ""
      w.metersFetch = .ok snap)
    (hLen : (get_electricity_vals snap).length < 2) :
    tryBlock env w =
      applyErr ⟨none, none, false, "", none, false, false, false, false⟩
        (.exc "Not enough electricity values received.") := by
  unfold tryBlock
  simp only [hAuth, hFetch]
  rw [if_pos hLen]

/-- The keys `send_mosenergo_data`'s `update` writes into the base payload,
for either operation kind. -/
theorem dictUpdate_sendPairs_facts (base : PyDict) (qt prov : String)
    (v0 v1 : Int) :
    dictGet (dictUpdate base (sendPairs qt prov v0 v1)) "vl_provider" =
      some (.jstr prov) ∧
    dictGet (dictUpdate base (sendPairs qt prov v0 v1)) "vl_t1" =
      some (.jint v0) ∧
    dictGet (dictUpdate base (sendPairs qt prov v0 v1)) "vl_t2" =
      some (.jint v1) ∧
    (qt = "CalcCharge" →
      dictGet (dictUpdate base (sendPairs qt prov v0 v1)) "proxyquery" =
        some (.jstr "CalcCharge")) := by
  by_cases hq : qt = "CalcCharge"
  · subst hq
    have hsp : sendPairs "CalcCharge" prov v0 v1 =
        [("proxyquery", .jstr "CalcCharge"), ("vl_provider", .jstr prov),
         ("vl_t1", .jint v0), ("vl_t2", .jint v1)] := rfl
    rw [hsp]
    simp only [dictUpdate, List.foldl_cons, List.foldl_nil]
    refine ⟨?_, ?_, ?_, fun _ => ?_⟩
    · rw [dictGet_dictSet_ne _ _ _ _ (show "vl_provider" ≠ "vl_t2" by decide),
          dictGet_dictSet_ne _ _ _ _ (show "vl_provider" ≠ "vl_t1" by decide),
          dictGet_dictSet_self]
    · rw [dictGet_dictSet_ne _ _ _ _ (show "vl_t1" ≠ "vl_t2" by decide),
          dictGet_dictSet_self]
    · rw [dictGet_dictSet_self]
    · rw [dictGet_dictSet_ne _ _ _ _ (show "proxyquery" ≠ "vl_t2" by decide),
          dictGet_dictSet_ne _ _ _ _ (show "proxyquery" ≠ "vl_t1" by decide),
          dictGet_dictSet_ne _ _ _ _ (show "proxyquery" ≠ "vl_provider" by decide),
          dictGet_dictSet_self]
  · have hsp : sendPairs qt prov v0 v1 =
        [("vl_provider", .jstr prov), ("vl_t1", .jint v0),
         ("vl_t2", .jint v1)] := by
      unfold sendPairs
      rw [if_neg hq]
    rw [hsp]
    simp only [dictUpdate, List.foldl_cons, List.foldl_nil]
    refine ⟨?_, ?_, ?_, fun hc => absurd hc hq⟩
    · rw [dictGet_dictSet_ne _ _ _ _ (show "vl_provider" ≠ "vl_t2" by decide),
          dictGet_dictSet_ne _ _ _ _ (show "vl_provider" ≠ "vl_t1" by decide),
          dictGet_dictSet_self]
    · rw [dictGet_dictSet_ne _ _ _ _ (show "vl_t1" ≠ "vl_t2" by decide),
          dictGet_dictSet_self]
    · rw [dictGet_dictSet_self]

/-! ### The claims -/

/-- C1 (code bug): the claim says the notifier runs at least once per
configured recipient on every outcome, including a metering authentication
failure.  In the code `sys.exit(1)` raises `SystemExit`, which
`except Exception` does not catch; in `finally` the unbound `message`
raises `UnboundLocalError` before any `send_telegram_message` call, so on
the auth-failure world nobody is notified and the process exits non-zero. -/
theorem C1_fatal_auth_no_notification :
    (runMain envFull wC1).notified = [] ∧
    (runMain envFull wC1).message = none ∧
    (runMain envFull wC1).exitOk = false :=
  ⟨rfl, rfl, rfl⟩

/-- C5 (code bug): the claim says fatal conditions inside the protected
region (here: a malformed meters response, status `'ok'` without `'data'`)
are caught and converted to a failure outcome with exit status 0.  The
code's `sys.exit(1)` escapes `except Exception`, so the run exits non-zero
and no notification is attempted. -/
theorem C5_malformed_response_nonzero_exit :
    (runMain envFull wC5).exitOk = false ∧
    (runMain envFull wC5).notified = [] ∧
    (runMain envFull wC5).message = none :=
  ⟨rfl, rfl, rfl⟩

/-- C7 (code bug): the claim says the billing connection is closed exactly
once on every exit path on which it was created.  When the provider lookup
fails after a successful billing auth, `sys.exit(1)` escapes, the `finally`
block dies on the unbound `message` before reaching `session.close()`, and
the created session is never closed. -/
theorem C7_session_never_closed :
    (runMain envFull wC7).sessionCreated = true ∧
    (runMain envFull wC7).sessionClosed = false ∧
    (runMain envFull wC7).exitOk = false :=
  ⟨rfl, rfl, rfl⟩

/-- C2 counterexample: both submission responses are non-absent with a true
`'success'` indicator, yet the run's final success flag is `False` — the
success branch raises `KeyError('data')` while rendering the message, and
the notification is the "Unexpected Failure" text, not the generic
check-logs message the claim requires for every failure. -/
theorem C2_counterexample :
    successCondition (some [("success", JVal.jbool true)])
        (some [("success", JVal.jbool true)]) = true ∧
    (runMain envFull wC2).calcResponse = some [("success", JVal.jbool true)] ∧
    (runMain envFull wC2).saveResponse = some [("success", JVal.jbool true)] ∧
    (runMain envFull wC2).success = false ∧
    (runMain envFull wC2).message = some (unexpectedMessage "'data'") ∧
    (runMain envFull wC2).message ≠ some failureMessage :=
  ⟨rfl, rfl, rfl, rfl, rfl, by decide⟩

/-- C2 (amended): the run is classified successful iff both submission
results are present and truthy, both `'success'` indicators are truthy,
the CalcCharge result's `data[0]` payload renders without raising — its
subscript chain succeeds and its `nm_result` is a string, since the
`.replace` chain raises `AttributeError` on anything else — and the
SaveIndications result's subscript chain succeeds (its value is only
`str()`-coerced); whenever the presence/truthiness condition itself fails,
the notification is the generic check-logs failure message. -/
theorem C2_classification (calcResp saveResp : Option PyDict) :
    ((classifyOutcome calcResp saveResp).success = true ↔
      (successCondition calcResp saveResp = true ∧
       calcRenderOk calcResp = true ∧ saveRenderOk saveResp = true)) ∧
    (successCondition calcResp saveResp = false →
      (classifyOutcome calcResp saveResp).message = failureMessage) := by
  constructor
  · cases hc : successCondition calcResp saveResp with
    | false => simp [classifyOutcome, hc, calcRenderOk, saveRenderOk]
    | true =>
      cases h1 : extractNmResult calcResp with
      | error e => simp [classifyOutcome, hc, h1, calcRenderOk, saveRenderOk]
      | ok cV =>
        cases h2 : cleanCalcResult cV with
        | error e =>
          simp [classifyOutcome, hc, h1, h2, calcRenderOk, saveRenderOk]
        | ok cT =>
          cases h3 : extractNmResult saveResp with
          | error e =>
            simp [classifyOutcome, hc, h1, h2, h3, calcRenderOk, saveRenderOk]
          | ok sV =>
            simp [classifyOutcome, hc, h1, h2, h3, calcRenderOk, saveRenderOk]
  · intro hc
    simp [classifyOutcome, hc]

/-- C2 witness: on two absent results the classifier produces the generic
check-logs failure message. -/
theorem C2_classification_check :
    (classifyOutcome none none).message = failureMessage :=
  (C2_classification none none).2 rfl

/-- C3 counterexample: a snapshot whose electricity meter has three values.
`get_electricity_vals` returns all three rounded values, not "exactly the
first two" as the claim states. -/
theorem C3_counterexample :
    get_electricity_vals snapThree = [1, 2, 7] ∧
    get_electricity_vals snapThree ≠ [1, 2] := by
  exact ⟨rfl, by decide⟩

/-- C3 (amended): `get_electricity_vals` returns all values of the first
electricity-typed meter in the depth-first sensors→meters scan, each
rounded half-to-even, in source order (so when that meter has at least two
values, the first two results are its first two values rounded). -/
theorem C3_first_meter_all_vals (data : Snapshot) (m : Meter)
    (h : (data.sensors.flatMap Sensor.meters).find? isElecMeter = some m) :
    get_electricity_vals data = m.vals.map pyRound := by
  unfold get_electricity_vals
  rw [scanSensors_eq_find, h]
  rfl

/-- C3 witness: the electricity meter in the second sensor is found and all
its values are returned rounded. -/
theorem C3_first_meter_all_vals_check :
    get_electricity_vals snapTwoSensors = [3, 5] := by
  rw [C3_first_meter_all_vals snapTwoSensors meterElec rfl]
  decide

/-- C4 counterexample: on a successful run whose SaveIndications result
text contains bold tags, the rendered notification still contains `<b>` —
the normalization the claim requires for both results is applied only to
the CalcCharge text. -/
theorem C4_counterexample :
    (runMain envFull wC4).success = true ∧
    (runMain envFull wC4).message =
      some "✅ *Mosenergosbyt Operation Success*\n\nAccrual **57.00**\n<b>Saved OK</b>" ∧
    strContainsSub
      "✅ *Mosenergosbyt Operation Success*\n\nAccrual **57.00**\n<b>Saved OK</b>"
      "<b>" = true :=
  ⟨rfl, rfl, rfl⟩

/-- C4 (amended): on a successful run the notification embeds the
CalcCharge result with the colored-font wrapper deleted and each HTML bold
tag occurrence replaced by Markdown `**` (one left-to-right pass per tag),
while the SaveIndications result is embedded verbatim, unnormalized. -/
theorem C4_calc_cleaned_save_verbatim (c s : String) :
    (runMain envFull (wSuccess c s)).success = true ∧
    (runMain envFull (wSuccess c s)).message =
      some ("✅ *Mosenergosbyt Operation Success*\n\n" ++
        cleanResultText c ++ "\n" ++ s) :=
  ⟨rfl, rfl⟩

/-- C6: a transport error on the CalcCharge submission is soft — the call
returns an absent result instead of raising, SaveIndications is still
attempted, and the run classifies as failure with the generic check-logs
notification (which carries no individual error reason), delivered to all
recipients with exit status 0. -/
theorem C6_soft_failure (d : PyDict) :
    (∃ r, send_mosenergo_data lkFull "msid" "prov1" [10, 20] "CalcCharge"
        calcPayloadInit .reqExn = .ok r ∧ r.result = .ok none) ∧
    (runMain envFull (wCalcFail d)).calcResponse = none ∧
    (runMain envFull (wCalcFail d)).saveAttempted = true ∧
    (runMain envFull (wCalcFail d)).success = false ∧
    (runMain envFull (wCalcFail d)).message = some failureMessage ∧
    (runMain envFull (wCalcFail d)).notified =
      [("42", failureMessage), ("43", failureMessage)] ∧
    (runMain envFull (wCalcFail d)).exitOk = true :=
  ⟨⟨_, rfl, rfl⟩, rfl, rfl, rfl, rfl, rfl, rfl⟩

/-- C8: a snapshot with no electricity-typed meter yields `[]` without an
error; the orchestrator then raises the validation failure before any
billing call, and the notification reports the validation message to every
recipient. -/
theorem C8_no_electricity (snap : Snapshot)
    (h : (snap.sensors.flatMap Sensor.meters).find? isElecMeter = none) :
    get_electricity_vals snap = [] ∧
    (runMain envFull (wNoElec snap)).mosAuthAttempted = false ∧
    (runMain envFull (wNoElec snap)).calcAttempted = false ∧
    (runMain envFull (wNoElec snap)).saveAttempted = false ∧
    (runMain envFull (wNoElec snap)).message =
      some (unexpectedMessage "Not enough electricity values received.") ∧
    (runMain envFull (wNoElec snap)).notified =
      [("42", unexpectedMessage "Not enough electricity values received."),
       ("43", unexpectedMessage "Not enough electricity values received.")] ∧
    (runMain envFull (wNoElec snap)).exitOk = true := by
  have hv : get_electricity_vals snap = [] := by
    unfold get_electricity_vals
    rw [scanSensors_eq_find, h]
    rfl
  have hLen : (get_electricity_vals snap).length < 2 := by
    rw [hv]; decide
  have hT := tryBlock_short_reading envVarsFull (wNoElec snap) "sid1" snap rfl rfl hLen
  refine ⟨hv, ?_, ?_, ?_, ?_, ?_, ?_⟩ <;>
    (simp [runMain, setup_envFull_ok, hT, applyErr]; try rfl)

/-- C8 witness: a water-only snapshot triggers the validation failure path
with no billing call and the validation notification. -/
theorem C8_no_electricity_check :
    get_electricity_vals snapWater = [] ∧
    (runMain envFull (wNoElec snapWater)).mosAuthAttempted = false ∧
    (runMain envFull (wNoElec snapWater)).calcAttempted = false ∧
    (runMain envFull (wNoElec snapWater)).saveAttempted = false ∧
    (runMain envFull (wNoElec snapWater)).message =
      some (unexpectedMessage "Not enough electricity values received.") ∧
    (runMain envFull (wNoElec snapWater)).notified =
      [("42", unexpectedMessage "Not enough electricity values received."),
       ("43", unexpectedMessage "Not enough electricity values received.")] ∧
    (runMain envFull (wNoElec snapWater)).exitOk = true :=
  C8_no_electricity snapWater rfl

/-- C9: `send_mosenergo_data` updates its base payload in place: with at
least two electricity values the returned payload is exactly the base
dict updated with `vl_provider`, `vl_t1`, `vl_t2` (and `proxyquery` for
the CalcCharge operation), and the update is the same expression whatever
the HTTP outcome `out` is. -/
theorem C9_payload_inplace_update (lk sid prov qt : String) (base : PyDict)
    (out : CallOut PyDict) (vals : List Int) (v0 v1 : Int) (rest : List Int)
    (h : vals = v0 :: v1 :: rest) :
    ∃ r, send_mosenergo_data lk sid prov vals qt base out = .ok r ∧
      r.payload = dictUpdate base (sendPairs qt prov v0 v1) ∧
      dictGet r.payload "vl_provider" = some (.jstr prov) ∧
      dictGet r.payload "vl_t1" = some (.jint v0) ∧
      dictGet r.payload "vl_t2" = some (.jint v1) ∧
      (qt = "CalcCharge" →
        dictGet r.payload "proxyquery" = some (.jstr "CalcCharge")) := by
  subst h
  obtain ⟨h1, h2, h3, h4⟩ := dictUpdate_sendPairs_facts base qt prov v0 v1
  cases out with
  | reqExn => exact ⟨_, rfl, rfl, h1, h2, h3, h4⟩
  | jsonExn => exact ⟨_, rfl, rfl, h1, h2, h3, h4⟩
  | ok body => exact ⟨_, rfl, rfl, h1, h2, h3, h4⟩

/-- C9 witness: the CalcCharge update on an empty base payload with a
transport-error outcome still carries all four keys. -/
theorem C9_payload_inplace_update_check :
    ∃ r, send_mosenergo_data "lk" "s1" "p1" [7, 8] "CalcCharge" [] .reqExn = .ok r ∧
      r.payload = dictUpdate [] (sendPairs "CalcCharge" "p1" 7 8) ∧
      dictGet r.payload "vl_provider" = some (.jstr "p1") ∧
      dictGet r.payload "vl_t1" = some (.jint 7) ∧
      dictGet r.payload "vl_t2" = some (.jint 8) ∧
      ("CalcCharge" = "CalcCharge" →
        dictGet r.payload "proxyquery" = some (.jstr "CalcCharge")) :=
  C9_payload_inplace_update "lk" "s1" "p1" "CalcCharge" [] .reqExn [7, 8] 7 8 [] rfl

/-- C10: any `query_type` other than the exact string `'CalcCharge'` takes
the SaveIndications branch — its URL and payload — and is never rejected:
the call still returns normally and adds no `proxyquery` key. -/
theorem C10_unknown_query_is_save (lk sid prov qt : String) (base : PyDict)
    (out : CallOut PyDict) (vals : List Int) (v0 v1 : Int) (rest : List Int)
    (h : vals = v0 :: v1 :: rest) (hq : qt ≠ "CalcCharge") :
    ∃ r, send_mosenergo_data lk sid prov vals qt base out = .ok r ∧
      r.url = lk ++ "?action=sql&query=SaveIndications&session=" ++ sid ∧
      r.payload = dictUpdate base
        [("vl_provider", .jstr prov), ("vl_t1", .jint v0), ("vl_t2", .jint v1)] ∧
      dictGet r.payload "proxyquery" = dictGet base "proxyquery" := by
  subst h
  have hurl : sendUrl lk sid qt =
      lk ++ "?action=sql&query=SaveIndications&session=" ++ sid := by
    unfold sendUrl
    rw [if_neg hq]
  have hpairs : sendPairs qt prov v0 v1 =
      [("vl_provider", .jstr prov), ("vl_t1", .jint v0), ("vl_t2", .jint v1)] := by
    unfold sendPairs
    rw [if_neg hq]
  have hpq : dictGet (dictUpdate base (sendPairs qt prov v0 v1)) "proxyquery" =
      dictGet base "proxyquery" := by
    rw [hpairs]
    simp only [dictUpdate, List.foldl_cons, List.foldl_nil]
    rw [dictGet_dictSet_ne _ _ _ _ (show "proxyquery" ≠ "vl_t2" by decide),
        dictGet_dictSet_ne _ _ _ _ (show "proxyquery" ≠ "vl_t1" by decide),
        dictGet_dictSet_ne _ _ _ _ (show "proxyquery" ≠ "vl_provider" by decide)]
  cases out with
  | reqExn => exact ⟨_, rfl, hurl, by rw [hpairs], hpq⟩
  | jsonExn => exact ⟨_, rfl, hurl, by rw [hpairs], hpq⟩
  | ok body => exact ⟨_, rfl, hurl, by rw [hpairs], hpq⟩

/-- C10 witness: an unrecognized operation name takes the SaveIndications
branch and returns normally. -/
theorem C10_unknown_query_is_save_check :
    ∃ r, send_mosenergo_data "lk" "s1" "p1" [7, 8] "Frobnicate" [] .reqExn = .ok r ∧
      r.url = "lk" ++ "?action=sql&query=SaveIndications&session=" ++ "s1" ∧
      r.payload = dictUpdate []
        [("vl_provider", .jstr "p1"), ("vl_t1", .jint 7), ("vl_t2", .jint 8)] ∧
      dictGet r.payload "proxyquery" = dictGet [] "proxyquery" :=
  C10_unknown_query_is_save "lk" "s1" "p1" "Frobnicate" [] .reqExn [7, 8] 7 8 []
    rfl (by decide)

end Autometer
